import Mathlib

/-!
Shallow embedding of the link-discovery / checking / classification pipeline
of the linkchecker repository (src/canvas_link_checker.py and
src/linkchecker.py), together with theorems settling the frozen claims
about it.

The embedding follows the Python source function by function.  HTTP status
codes are natural numbers (0 is the transport-failure sentinel used by the
code).  Python dictionaries used as records become Lean structures; the
parsed HTML soup becomes a list of typed element records in document order;
the network probe of `requests.get` / `scraper.get` becomes an explicit
outcome value consumed by `check_link_status`.
-/

namespace LinkChecker

/-! ## String helpers

Character-list models of the Python string operations the source uses:
substring membership (`needle in hay`), `urlparse(url).netloc`, and the
regex search of `_extract_course_id`. -/

/-- Model of Python list/string prefix test on character lists. -/
def prefCheck : List Char → List Char → Bool
  | [], _ => true
  | _ :: _, [] => false
  | a :: as, b :: bs => a == b && prefCheck as bs

/-- Model of the Python substring operator `needle in hay` on character
lists: some (possibly empty) run of `hay` equals `needle`. -/
def substrCheck (needle : List Char) : List Char → Bool
  | [] => needle.isEmpty
  | c :: rest => prefCheck needle (c :: rest) || substrCheck needle rest

/-- String-level wrapper for `substrCheck`, the Python `in` operator. -/
def strContains (hay needle : String) : Bool :=
  substrCheck needle.toList hay.toList

/-- Characters allowed in a URL scheme after its leading letter, as in
urllib.parse. -/
def isSchemeChar (c : Char) : Bool :=
  c.isAlphanum || c == '+' || c == '-' || c == '.'

/-- A candidate scheme is a letter followed by scheme characters. -/
def validScheme : List Char → Bool
  | [] => false
  | c :: rest => c.isAlpha && rest.all isSchemeChar

/-- Drops a leading `scheme:` from a URL's characters when one is present,
as urllib.parse does before looking for the network location. -/
def dropScheme (s : List Char) : List Char :=
  let pre := s.takeWhile (fun c => c != ':')
  if pre.length < s.length && validScheme pre then s.drop (pre.length + 1) else s

/-- The network location of a URL's characters: present only when the text
after the scheme starts with two slashes, and then runs to the next
slash, question mark or hash, as in urllib.parse. -/
def netlocChars (s : List Char) : List Char :=
  match dropScheme s with
  | '/' :: '/' :: rest => rest.takeWhile (fun c => c != '/' && c != '?' && c != '#')
  | _ => []

/-- Embedding of `_get_domain` (both source files): `urlparse(url).netloc`,
with the empty string on failure. -/
def get_domain (url : String) : String :=
  ⟨netlocChars url.toList⟩

/-- Maximal leading run of decimal digits, the regex fragment `\d+`. -/
def digitRun : List Char → List Char
  | [] => []
  | c :: rest => if c.isDigit then c :: digitRun rest else []

/-- One attempt of the regex `/courses/(\d+)` at the start of `s`: the
literal text followed by at least one digit, capturing the digit run. -/
def courseIdAt (s : List Char) : Option (List Char) :=
  if prefCheck "/courses/".toList s then
    match digitRun (s.drop 9) with
    | [] => none
    | ds => some ds
  else none

/-- Leftmost match of the regex `/courses/(\d+)`, as `re.search` finds it:
the first position where the whole pattern matches wins. -/
def findCourseId : List Char → Option (List Char)
  | [] => none
  | c :: rest =>
    match courseIdAt (c :: rest) with
    | some ds => some ds
    | none => findCourseId rest

/-- Embedding of `_extract_course_id` (canvas_link_checker.py): the first
`/courses/<digits>` group in the URL, when present. -/
def extract_course_id (url : String) : Option String :=
  (findCourseId url.toList).map fun ds => ⟨ds⟩

/-- Python `str.strip()` on a character list: whitespace removed from
both ends. -/
def stripChars (s : List Char) : List Char :=
  ((s.dropWhile Char.isWhitespace).reverse.dropWhile Char.isWhitespace).reverse

/-- Python `str.strip()`. -/
def pyStrip (s : String) : String :=
  ⟨stripChars s.toList⟩

/-- Python `str.startswith(p)`. -/
def pyStartsWith (s p : String) : Bool :=
  prefCheck p.toList s.toList

/-- Embedding of `_is_valid_url` (both source files) on a present string:
`url and url.strip() and not url.startswith(('mailto:', 'javascript:',
'#', 'tel:'))`, read as a boolean. -/
def is_valid_url_str (url : String) : Bool :=
  url != "" && pyStrip url != "" &&
    !(pyStartsWith url "mailto:" || pyStartsWith url "javascript:" ||
      pyStartsWith url "#" || pyStartsWith url "tel:")

/-- `_is_valid_url` as called on an attribute lookup that may be absent
(Python `None` is falsy, so an absent attribute is rejected). -/
def is_valid_url : Option String → Bool
  | none => false
  | some url => is_valid_url_str url

/-! ## Data model -/

/-- One discovered reference, the dictionary built by
`_extract_links_from_html` and by the module-item loop. -/
structure DiscoveredLink where
  url : String
  text : String
  source_url : String
  location_name : String
  type : String
  deriving Repr, DecidableEq

/-- The per-URL record stored in `url_results` by `run_link_checker`
(canvas variant; the simple variant stores the same fields without
`is_canvas`, which its classifier never reads). -/
structure CheckResult where
  status : Nat
  reason : String
  redirect : Bool
  final_url : String
  is_canvas : Bool
  deriving Repr, DecidableEq

/-- One row of the final report, the dictionary appended to
`report_rows`. -/
structure IssueRecord where
  issue_type : String
  location : String
  status_code : Nat
  status_msg : String
  link_text : String
  original_url : String
  final_url : String
  edit_link : String
  deriving Repr, DecidableEq

/-! ## Issue classifier -/

/-- The issue-classification chain of `run_link_checker`
(canvas_link_checker.py, lines 260-273): the value of `issue_type` after
the if/elif ladder, `none` when no rule matched. -/
def classify_canvas_type (link : DiscoveredLink) (res : CheckResult)
    (course_id : String) : Option String :=
  if 500 ≤ res.status then some "Server Error (5xx)"
  else if res.is_canvas = true ∧ (res.status = 401 ∨ res.status = 403) then
    match extract_course_id link.url with
    | some link_course_id =>
        if link_course_id ≠ course_id then
          some "Inaccessible Canvas Course (Other Course)"
        else some "Access Denied (Locked Content)"
    | none => some "Access Denied (Locked Content)"
  else if 400 ≤ res.status then some "Broken Link (4xx)"
  else if res.status = 0 then some "Connection Failed"
  else if res.redirect = true then some "Redirect"
  else none

/-- The report row built by `run_link_checker` (canvas_link_checker.py,
lines 275-286) when `issue_type` is set. -/
def canvas_row (link : DiscoveredLink) (res : CheckResult)
    (issue_type : String) : IssueRecord :=
  { issue_type := issue_type
    location := link.location_name
    status_code := res.status
    status_msg := res.reason
    link_text := link.text
    original_url := link.url
    final_url := if res.redirect then res.final_url else ""
    edit_link := link.source_url }

/-- The full canvas classifier: zero or one report row per
(link, result) pair. -/
def classify_canvas (link : DiscoveredLink) (res : CheckResult)
    (course_id : String) : Option IssueRecord :=
  (classify_canvas_type link res course_id).map (canvas_row link res)

/-- The degenerate classifier of `run_link_checker` (linkchecker.py,
lines 257-272): `is_broken = status_code >= 400 or status_code == 0`,
report when broken or redirected, labelled two ways. -/
def classify_simple (link : DiscoveredLink) (res : CheckResult) :
    Option IssueRecord :=
  let is_broken : Bool := 400 ≤ res.status || res.status = 0
  if is_broken || res.redirect then
    some { issue_type := if is_broken then "Broken Link" else "Redirect"
           location := link.location_name
           status_code := res.status
           status_msg := res.reason
           link_text := link.text
           original_url := link.url
           final_url := if res.redirect then res.final_url else ""
           edit_link := link.source_url }
  else none

/-! ## URL checker

The network probe itself (`scraper.get` / `requests.get`) is the external
transport; its possible outcomes at the boundary of the `try` block are an
HTTP response or one of the transport exceptions the source catches.  The
checker functions below are the embedding of `_check_link_status` in each
source file, consuming such an outcome. -/

/-- What the guarded network call can produce: a response, or one of the
transport failures distinguished by the except clauses. -/
inductive ProbeOutcome where
  | response (status : Nat) (reason : String) (historyLen : Nat) (finalUrl : String)
  | connectionError
  | timeout
  | otherError (msg : String)
  deriving Repr, DecidableEq

/-- The tuple returned by `_check_link_status` in canvas_link_checker.py:
`(url, status_code, reason, is_redirect, final_url, is_canvas_link)`. -/
structure CheckTuple where
  url : String
  status : Nat
  reason : String
  is_redirect : Bool
  final_url : String
  is_canvas : Bool
  deriving Repr, DecidableEq

/-- The tuple returned by `_check_link_status` in linkchecker.py:
`(url, status_code, reason, is_redirect, final_url)`. -/
structure CheckTuple5 where
  url : String
  status : Nat
  reason : String
  is_redirect : Bool
  final_url : String
  deriving Repr, DecidableEq

/-- The internal-link test shared by both checkers:
`_get_domain(CANVAS_API_URL) in url`, a substring test on the whole URL
string. -/
def is_canvas_link (canvas_api_url url : String) : Bool :=
  strContains url (get_domain canvas_api_url)

/-- The request headers prepared by `_check_link_status` in
canvas_link_checker.py: empty, plus a bearer authorization entry for
internal links. -/
def canvas_request_headers (canvas_api_url api_key url : String) :
    List (String × String) :=
  if is_canvas_link canvas_api_url url then
    [("Authorization", "Bearer " ++ api_key)]
  else []

/-- The fixed browser-identification header of linkchecker.py. -/
def HEADERS : List (String × String) :=
  [("User-Agent", "Mozilla/5.0 (Windows NT 10.0; Win64; x64) AppleWebKit/537.36 (KHTML, like Gecko) Chrome/91.0.4472.124 Safari/537.36")]

/-- The request headers prepared by `_check_link_status` in
linkchecker.py: a copy of `HEADERS`, plus a bearer authorization entry for
internal links. -/
def simple_request_headers (canvas_api_url api_key url : String) :
    List (String × String) :=
  HEADERS ++
    (if is_canvas_link canvas_api_url url then
      [("Authorization", "Bearer " ++ api_key)]
    else [])

/-- Embedding of `_check_link_status` (canvas_link_checker.py, lines
66-102) given the probe's outcome: a response is decoded into the result
tuple (`is_redirect` when the redirect history is non-empty); each caught
transport exception becomes status 0 with its descriptive text, no
redirect flag and an empty final URL. -/
def check_link_status_canvas (canvas_api_url api_key url : String)
    (outcome : ProbeOutcome) : CheckTuple :=
  let is_canvas := is_canvas_link canvas_api_url url
  let _headers := canvas_request_headers canvas_api_url api_key url
  match outcome with
  | .response status reason historyLen finalUrl =>
      ⟨url, status, reason, 0 < historyLen, finalUrl, is_canvas⟩
  | .connectionError => ⟨url, 0, "Connection Error", false, "", is_canvas⟩
  | .timeout => ⟨url, 0, "Timeout", false, "", is_canvas⟩
  | .otherError e => ⟨url, 0, "Error: " ++ e, false, "", is_canvas⟩

/-- Embedding of `_check_link_status` (linkchecker.py, lines 53-87) given
the probe's outcome. -/
def check_link_status_simple (canvas_api_url api_key url : String)
    (outcome : ProbeOutcome) : CheckTuple5 :=
  let _headers := simple_request_headers canvas_api_url api_key url
  match outcome with
  | .response status reason historyLen finalUrl =>
      ⟨url, status, reason, 0 < historyLen, finalUrl⟩
  | .connectionError => ⟨url, 0, "Connection Error", false, ""⟩
  | .timeout => ⟨url, 0, "Timeout", false, ""⟩
  | .otherError e => ⟨url, 0, "Error: " ++ e, false, ""⟩

/-! ## Link extractor

BeautifulSoup's parse of a fragment is modelled as the flat list, in
document order, of the element nodes the source queries with `find_all`:
each node carries its tag name, attribute map and (already
whitespace-stripped) text content. -/

/-- A parsed HTML element node. -/
structure Element where
  tag : String
  attrs : List (String × String)
  innerText : String
  deriving Repr, DecidableEq

/-- Python `element.get(name)`: the attribute's value when present. -/
def getAttr (e : Element) (name : String) : Option String :=
  e.attrs.lookup name

/-- Model of `soup.find_all(tag)`: all elements with that tag, in
document order. -/
def findAll (doc : List Element) (tag : String) : List Element :=
  doc.filter fun e => e.tag == tag

/-- Model of `urllib.parse.urljoin` restricted to the shapes arising
here: a reference carrying its own scheme is returned unchanged; a
root-relative reference is resolved against the base URL's origin; any
other reference is appended to the base after a slash.  Dot-segment
normalization is not modelled. -/
def urljoin (base url : String) : String :=
  let chars := url.toList
  let pre := chars.takeWhile fun c => c != ':'
  if pre.length < chars.length && validScheme pre then url
  else if pyStartsWith url "//" then
    String.mk (base.toList.takeWhile fun c => c != ':') ++ ":" ++ url
  else if pyStartsWith url "/" then
    String.mk (base.toList.takeWhile fun c => c != ':') ++ "://" ++
      get_domain base ++ url
  else base ++ "/" ++ url

/-- The anchor pass of `_extract_links_from_html`: for each `a` element,
take `href` and the first 50 characters of the stripped text, keep it
when the reference passes the URL filter. -/
def anchorPass (base source_url location_name : String)
    (doc : List Element) : List DiscoveredLink :=
  (findAll doc "a").filterMap fun a =>
    match getAttr a "href" with
    | none => none
    | some href =>
        let text : String := ⟨a.innerText.toList.take 50⟩
        if is_valid_url_str href then
          some { url := urljoin base href
                 text := if text != "" then text else "[Image/No Text]"
                 source_url := source_url
                 location_name := location_name
                 type := "Link" }
        else none

/-- The image pass of `_extract_links_from_html`: for each `img` element,
take `src` and build the alt-text label. -/
def imagePass (base source_url location_name : String)
    (doc : List Element) : List DiscoveredLink :=
  (findAll doc "img").filterMap fun img =>
    match getAttr img "src" with
    | none => none
    | some src =>
        if is_valid_url_str src then
          some { url := urljoin base src
                 text := "Image: " ++ ((getAttr img "alt").getD "No Alt Text")
                 source_url := source_url
                 location_name := location_name
                 type := "Image" }
        else none

/-- The iframe pass of `_extract_links_from_html`. -/
def iframePass (base source_url location_name : String)
    (doc : List Element) : List DiscoveredLink :=
  (findAll doc "iframe").filterMap fun iframe =>
    match getAttr iframe "src" with
    | none => none
    | some src =>
        if is_valid_url_str src then
          some { url := urljoin base src
                 text := "Iframe Embed"
                 source_url := source_url
                 location_name := location_name
                 type := "Iframe" }
        else none

/-- Embedding of `_extract_links_from_html` (both source files): an absent
or empty fragment yields no links; otherwise the anchor pass, then the
image pass, then the iframe pass, appended in that order as the three
source loops run. -/
def extract_links_from_html (base : String) (html : Option (List Element))
    (source_url location_name : String) : List DiscoveredLink :=
  match html with
  | none => []
  | some doc =>
      anchorPass base source_url location_name doc ++
      imagePass base source_url location_name doc ++
      iframePass base source_url location_name doc

/-! ## Concurrency coordinator

The dispatch loop of `run_link_checker` deduplicates the URLs of all
links, maps the checker over the distinct URLs, and stores one result per
URL.  The network is abstracted as a function from URL to `CheckResult`:
each distinct URL is probed exactly once, so a single outcome per URL is
the faithful picture of the run. -/

/-- `list(set(item['url'] for item in all_links))`: the distinct URLs, one
occurrence each (first occurrences retained as the canonical order). -/
def uniqueUrls (links : List DiscoveredLink) : List String :=
  (links.map fun l => l.url).dedup

/-- The fan-out/fan-in of `run_link_checker`: one checker call per
distinct URL, results collected into the association `url_results` keyed
by URL. -/
def checkAll (check : String → CheckResult) (links : List DiscoveredLink) :
    List (String × CheckResult) :=
  (uniqueUrls links).map fun u => (u, check u)

/-- `url_results.get(url)`: lookup in the collected mapping (the keys are
distinct, so first match is the match). -/
def lookupResult : List (String × CheckResult) → String → Option CheckResult
  | [], _ => none
  | (k, v) :: rest, url => if url = k then some v else lookupResult rest url

/-! ## Concrete example inputs used by witnesses and counterexamples -/

/-- A discovered link pointing into course 99 of the canvas origin. -/
def exLink99 : DiscoveredLink :=
  { url := "https://canvas.example.com/courses/99/pages/a"
    text := "go", source_url := "https://canvas.example.com/courses/42/pages/home"
    location_name := "Page: Home", type := "Link" }

/-- A check result for a 401 on an internal link. -/
def exRes401 : CheckResult :=
  { status := 401, reason := "Unauthorized", redirect := false
    final_url := "", is_canvas := true }

/-- A check result for a 503 reached after a redirect. -/
def exRes503R : CheckResult :=
  { status := 503, reason := "Service Unavailable", redirect := true
    final_url := "https://y.example/b", is_canvas := false }

/-- A successful, non-redirected check result. -/
def exRes200 : CheckResult :=
  { status := 200, reason := "OK", redirect := false
    final_url := "", is_canvas := false }

/-- A second discovered link sharing exLink99's URL, found elsewhere. -/
def exLinkB : DiscoveredLink :=
  { url := "https://canvas.example.com/courses/99/pages/a"
    text := "again", source_url := "https://canvas.example.com/courses/42/pages/two"
    location_name := "Page: Two", type := "Link" }

/-- Marker for the probe outcomes the except clauses catch. -/
def ProbeOutcome.isFailure : ProbeOutcome → Bool
  | .response _ _ _ _ => false
  | _ => true

/-! ## Helper lemmas -/

theorem prefCheck_iff (n : List Char) : ∀ h : List Char,
    prefCheck n h = true ↔ ∃ t, n ++ t = h := by
  induction n with
  | nil =>
      intro h
      simp [prefCheck]
  | cons a as ih =>
      intro h
      cases h with
      | nil => simp [prefCheck]
      | cons b bs =>
          simp only [prefCheck, Bool.and_eq_true, beq_iff_eq, ih bs]
          constructor
          · rintro ⟨rfl, t, rfl⟩
            exact ⟨t, rfl⟩
          · rintro ⟨t, ht⟩
            injection ht with h1 h2
            exact ⟨h1, t, h2⟩

theorem substrCheck_iff (n : List Char) : ∀ h : List Char,
    substrCheck n h = true ↔ ∃ pre post, pre ++ n ++ post = h := by
  intro h
  induction h with
  | nil =>
      simp only [substrCheck, List.isEmpty_iff]
      constructor
      · rintro rfl
        exact ⟨[], [], rfl⟩
      · rintro ⟨pre, post, hp⟩
        rcases List.append_eq_nil.mp hp with ⟨hp1, hp2⟩
        exact (List.append_eq_nil.mp hp1).2
  | cons c rest ih =>
      simp only [substrCheck, Bool.or_eq_true, prefCheck_iff, ih]
      constructor
      · rintro (⟨t, ht⟩ | ⟨pre, post, hp⟩)
        · exact ⟨[], t, by simpa using ht⟩
        · exact ⟨c :: pre, post, by simp [hp]⟩
      · rintro ⟨pre, post, hp⟩
        cases pre with
        | nil => exact Or.inl ⟨post, by simpa using hp⟩
        | cons d pre2 =>
            injection hp with h1 h2
            exact Or.inr ⟨pre2, post, h2⟩

theorem strContains_iff (hay needle : String) :
    strContains hay needle = true ↔
      ∃ pre post, pre ++ needle.toList ++ post = hay.toList := by
  unfold strContains
  exact substrCheck_iff _ _

theorem digitRun_digits : ∀ s : List Char, ∀ c ∈ digitRun s, c.isDigit = true := by
  intro s
  induction s with
  | nil => intro c hc; simp [digitRun] at hc
  | cons a as ih =>
      intro c hc
      by_cases ha : a.isDigit = true
      · rw [digitRun, if_pos ha] at hc
        rcases List.mem_cons.mp hc with rfl | hmem
        · exact ha
        · exact ih c hmem
      · rw [digitRun, if_neg ha] at hc
        simp at hc

theorem courseIdAt_digits (s ds : List Char) (h : courseIdAt s = some ds) :
    ds ≠ [] ∧ ∀ c ∈ ds, c.isDigit = true := by
  unfold courseIdAt at h
  split_ifs at h with hp
  · revert h
    cases hd : digitRun (s.drop 9) with
    | nil => intro h; cases h
    | cons a as =>
        intro h
        injection h with h
        subst h
        refine ⟨by simp, ?_⟩
        intro c hc
        exact digitRun_digits _ c (hd ▸ hc)

theorem findCourseId_digits : ∀ s ds : List Char, findCourseId s = some ds →
    ds ≠ [] ∧ ∀ c ∈ ds, c.isDigit = true := by
  intro s
  induction s with
  | nil => intro ds h; cases h
  | cons c rest ih =>
      intro ds h
      rw [findCourseId] at h
      revert h
      cases hat : courseIdAt (c :: rest) with
      | some d =>
          intro h
          injection h with h
          subst h
          exact courseIdAt_digits _ _ hat
      | none =>
          intro h
          exact ih ds h

theorem extract_course_id_digits (url s : String)
    (h : extract_course_id url = some s) :
    s.toList ≠ [] ∧ ∀ c ∈ s.toList, c.isDigit = true := by
  unfold extract_course_id at h
  revert h
  cases hf : findCourseId url.toList with
  | none => intro h; cases h
  | some ds =>
      intro h
      injection h with h
      subst h
      exact findCourseId_digits _ _ hf

theorem classify_canvas_eq_none_iff (link : DiscoveredLink) (res : CheckResult)
    (cid : String) :
    classify_canvas link res cid = none ↔
      classify_canvas_type link res cid = none := by
  unfold classify_canvas
  cases classify_canvas_type link res cid <;> simp

theorem classify_canvas_type_none_iff (link : DiscoveredLink) (res : CheckResult)
    (cid : String) :
    classify_canvas_type link res cid = none ↔
      res.status < 400 ∧ res.status ≠ 0 ∧ res.redirect = false := by
  have hmatch : ∀ o : Option String,
      (match o with
       | some lc =>
           if lc ≠ cid then some "Inaccessible Canvas Course (Other Course)"
           else some "Access Denied (Locked Content)"
       | none => some "Access Denied (Locked Content)") ≠ (none : Option String) := by
    intro o
    cases o with
    | none => simp
    | some lc =>
        dsimp only
        split_ifs <;> simp
  unfold classify_canvas_type
  split_ifs with h1 h2 h3 h4 h5
  · exact iff_of_false (by simp) (by rintro ⟨ha, -, -⟩; omega)
  · rcases h2 with ⟨-, h2⟩
    exact iff_of_false (hmatch _) (by rintro ⟨ha, -, -⟩; omega)
  · exact iff_of_false (by simp) (by rintro ⟨ha, -, -⟩; omega)
  · exact iff_of_false (by simp) (by rintro ⟨-, ha, -⟩; exact ha h4)
  · exact iff_of_false (by simp)
      (by rintro ⟨-, -, ha⟩; rw [h5] at ha; cases ha)
  · exact iff_of_true rfl ⟨by omega, h4, by simpa using h5⟩

/-! ## Claim theorems -/

/-- C1: the issue classifier evaluates its five rules in fixed precedence
order with first match winning: status 500+ is Server Error regardless of
every other field; an internal 401/403 gets one of the two access labels;
a remaining 400+ is Broken Link; a remaining status 0 is Connection
Failed; a remaining redirect is Redirect; no record is emitted exactly
when no rule matches.  In particular a 503 with the redirect flag set is
Server Error, and a 200 without redirect produces nothing. -/
theorem classifier_precedence_order (link : DiscoveredLink) (res : CheckResult)
    (cid : String) :
    (500 ≤ res.status →
       classify_canvas_type link res cid = some "Server Error (5xx)")
  ∧ (res.status < 500 → res.is_canvas = true →
       (res.status = 401 ∨ res.status = 403) →
       classify_canvas_type link res cid =
           some "Inaccessible Canvas Course (Other Course)" ∨
       classify_canvas_type link res cid =
           some "Access Denied (Locked Content)")
  ∧ (400 ≤ res.status → res.status < 500 →
       ¬(res.is_canvas = true ∧ (res.status = 401 ∨ res.status = 403)) →
       classify_canvas_type link res cid = some "Broken Link (4xx)")
  ∧ (res.status = 0 →
       classify_canvas_type link res cid = some "Connection Failed")
  ∧ (res.redirect = true → res.status < 400 → res.status ≠ 0 →
       classify_canvas_type link res cid = some "Redirect")
  ∧ (classify_canvas link res cid = none ↔
       res.status < 400 ∧ res.status ≠ 0 ∧ res.redirect = false)
  ∧ (res.status = 503 →
       classify_canvas_type link res cid = some "Server Error (5xx)")
  ∧ (res.status = 200 → res.redirect = false →
       classify_canvas link res cid = none) := by
  refine ⟨?_, ?_, ?_, ?_, ?_, ?_, ?_, ?_⟩
  · intro h
    unfold classify_canvas_type
    rw [if_pos h]
  · intro h1 hc h2
    unfold classify_canvas_type
    rw [if_neg (by omega), if_pos ⟨hc, h2⟩]
    cases extract_course_id link.url with
    | none => exact Or.inr rfl
    | some lc =>
        dsimp only
        by_cases hne : lc ≠ cid
        · rw [if_pos hne]
          exact Or.inl rfl
        · rw [if_neg hne]
          exact Or.inr rfl
  · intro h4 h5 hn
    unfold classify_canvas_type
    rw [if_neg (by omega), if_neg hn, if_pos h4]
  · intro h0
    unfold classify_canvas_type
    rw [if_neg (by omega), if_neg (by rintro ⟨-, h | h⟩ <;> omega),
      if_neg (by omega), if_pos h0]
  · intro hr h4 h0
    unfold classify_canvas_type
    rw [if_neg (by omega), if_neg (by rintro ⟨-, h | h⟩ <;> omega),
      if_neg (by omega), if_neg h0, if_pos hr]
  · exact (classify_canvas_eq_none_iff link res cid).trans
      (classify_canvas_type_none_iff link res cid)
  · intro h
    unfold classify_canvas_type
    rw [if_pos (by omega)]
  · intro h hr
    rw [classify_canvas_eq_none_iff, classify_canvas_type_none_iff]
    exact ⟨by omega, by omega, hr⟩

/-- Witness for C1 at concrete inputs: a 503 with redirect classifies as
Server Error, and a plain 200 produces no record. -/
theorem classifier_precedence_order_witness :
    classify_canvas_type exLink99 exRes503R "42" = some "Server Error (5xx)" ∧
    classify_canvas exLink99 exRes200 "42" = none :=
  ⟨(classifier_precedence_order exLink99 exRes503R "42").2.2.2.2.2.2.1 rfl,
   (classifier_precedence_order exLink99 exRes200 "42").2.2.2.2.2.2.2 rfl rfl⟩

/-- C2 counterexample: on an internal 401 pointing at a different course,
the code labels the issue "Inaccessible Canvas Course (Other Course)",
not the claim's "Inaccessible Content (Other Container)". -/
theorem other_container_label_cex :
    classify_canvas_type exLink99 exRes401 "42" =
      some "Inaccessible Canvas Course (Other Course)" ∧
    ("Inaccessible Canvas Course (Other Course)" : String) ≠
      "Inaccessible Content (Other Container)" := by
  refine ⟨by decide, by decide⟩

/-- C2 as amended: for an internal 401/403, the classifier extracts the
first `/courses/<digits>` group of the link's URL; a found identifier
differing from the current course gives "Inaccessible Canvas Course
(Other Course)", and an equal or missing identifier gives "Access Denied
(Locked Content)"; an extracted identifier is always a non-empty string
of digits. -/
theorem internal_auth_rule_spec (link : DiscoveredLink) (res : CheckResult)
    (cid : String) (hc : res.is_canvas = true)
    (hs : res.status = 401 ∨ res.status = 403) :
    (∀ lc, extract_course_id link.url = some lc → lc ≠ cid →
       classify_canvas_type link res cid =
         some "Inaccessible Canvas Course (Other Course)")
  ∧ (∀ lc, extract_course_id link.url = some lc → lc = cid →
       classify_canvas_type link res cid =
         some "Access Denied (Locked Content)")
  ∧ (extract_course_id link.url = none →
       classify_canvas_type link res cid =
         some "Access Denied (Locked Content)")
  ∧ (∀ lc, extract_course_id link.url = some lc →
       lc.toList ≠ [] ∧ ∀ c ∈ lc.toList, c.isDigit = true) := by
  have hstep : classify_canvas_type link res cid =
      (match extract_course_id link.url with
       | some lc =>
           if lc ≠ cid then some "Inaccessible Canvas Course (Other Course)"
           else some "Access Denied (Locked Content)"
       | none => some "Access Denied (Locked Content)") := by
    unfold classify_canvas_type
    rw [if_neg (by omega), if_pos ⟨hc, hs⟩]
  refine ⟨?_, ?_, ?_, ?_⟩
  · intro lc hlc hne
    rw [hstep, hlc]
    dsimp only
    rw [if_pos hne]
  · intro lc hlc heq
    rw [hstep, hlc]
    dsimp only
    rw [if_neg (fun h => h heq)]
  · intro hnone
    rw [hstep, hnone]
  · intro lc hlc
    exact extract_course_id_digits link.url lc hlc

/-- Witness for C2's amended statement at a concrete internal 401 whose
URL carries course 99 while course 42 is being scanned. -/
theorem internal_auth_rule_spec_witness :
    classify_canvas_type exLink99 exRes401 "42" =
      some "Inaccessible Canvas Course (Other Course)" :=
  (internal_auth_rule_spec exLink99 exRes401 "42" rfl (Or.inl rfl)).1
    "99" (by decide) (by decide)

/-- C7: the URL filter accepts a reference exactly when it is non-empty
after trimming and carries none of the rejected scheme markers; it is a
pure boolean predicate of its argument. -/
theorem url_filter_spec (s : String) :
    is_valid_url_str s = true ↔
      (pyStrip s ≠ "" ∧ pyStartsWith s "mailto:" = false ∧
       pyStartsWith s "javascript:" = false ∧ pyStartsWith s "#" = false ∧
       pyStartsWith s "tel:" = false) := by
  unfold is_valid_url_str
  simp only [Bool.and_eq_true, bne_iff_ne, ne_eq, Bool.not_eq_true',
    Bool.or_eq_false_iff]
  constructor
  · rintro ⟨⟨-, htrim⟩, ⟨⟨h1, h2⟩, h3⟩, h4⟩
    exact ⟨htrim, h1, h2, h3, h4⟩
  · rintro ⟨htrim, h1, h2, h3, h4⟩
    refine ⟨⟨?_, htrim⟩, ⟨⟨h1, h2⟩, h3⟩, h4⟩
    intro he
    exact htrim (by rw [he]; rfl)

/-- Witness for C7: an ordinary absolute URL passes the filter. -/
theorem url_filter_spec_witness :
    is_valid_url_str "https://ok.example/page" = true :=
  (url_filter_spec "https://ok.example/page").mpr (by decide)

/-- C3 counterexample: a URL on the foreign domain evil.com whose query
string merely mentions the canvas domain is flagged internal and is given
the bearer authorization header, although its domain differs from the
base origin's domain. -/
theorem internal_flag_substring_cex :
    get_domain "https://evil.com/a?canvas.example.com" ≠
      get_domain "https://canvas.example.com" ∧
    is_canvas_link "https://canvas.example.com"
      "https://evil.com/a?canvas.example.com" = true ∧
    (check_link_status_canvas "https://canvas.example.com" "k"
      "https://evil.com/a?canvas.example.com"
      ProbeOutcome.connectionError).is_canvas = true ∧
    canvas_request_headers "https://canvas.example.com" "k"
      "https://evil.com/a?canvas.example.com" =
        [("Authorization", "Bearer k")] := by
  refine ⟨by decide, by decide, by decide, by decide⟩

/-- C3 as amended: the checker's internal flag is a substring test — the
URL is treated as internal exactly when the base origin's domain occurs
anywhere in the URL string — and the bearer authorization header is
attached exactly when that flag holds. -/
theorem internal_flag_substring_spec (base key url : String)
    (outcome : ProbeOutcome) :
    ((check_link_status_canvas base key url outcome).is_canvas =
       is_canvas_link base url)
  ∧ (is_canvas_link base url = true ↔
       ∃ pre post, pre ++ (get_domain base).toList ++ post = url.toList)
  ∧ (is_canvas_link base url = false →
       canvas_request_headers base key url = [])
  ∧ (is_canvas_link base url = true →
       canvas_request_headers base key url =
         [("Authorization", "Bearer " ++ key)]) := by
  refine ⟨?_, ?_, ?_, ?_⟩
  · cases outcome <;> rfl
  · exact strContains_iff url (get_domain base)
  · intro h
    unfold canvas_request_headers
    rw [if_neg (by rw [h]; exact Bool.false_ne_true)]
  · intro h
    unfold canvas_request_headers
    rw [if_pos h]

/-- Witness for C3's amended statement: a URL embedding the base domain
in its query is internal and receives the authorization header. -/
theorem internal_flag_substring_spec_witness :
    canvas_request_headers "https://canvas.example.com" "k"
      "https://evil.com/a?canvas.example.com" =
        [("Authorization", "Bearer k")] :=
  (internal_flag_substring_spec "https://canvas.example.com" "k"
      "https://evil.com/a?canvas.example.com"
      ProbeOutcome.connectionError).2.2.2 (by decide)

/-- C4 counterexample: a 503 reached after a redirect yields an issue
record whose type is "Server Error (5xx)" yet whose final URL is the
non-empty redirect target, contradicting the claim that only Redirect
records carry a final URL. -/
theorem final_url_non_redirect_cex :
    (classify_canvas exLink99 exRes503R "42").map
        (fun r => (r.issue_type, r.final_url)) =
      some ("Server Error (5xx)", "https://y.example/b") ∧
    ("Server Error (5xx)" : String) ≠ "Redirect" ∧
    ("https://y.example/b" : String) ≠ "" := by
  refine ⟨by decide, by decide, by decide⟩

/-- C4 as amended: every emitted issue record, of either classifier
variant, carries the check's final URL exactly when the redirect flag of
the check result is set, regardless of the issue type, and the empty
string otherwise. -/
theorem final_url_follows_redirect_flag (link : DiscoveredLink)
    (res : CheckResult) (cid : String) :
    (∀ rec, classify_canvas link res cid = some rec →
       rec.final_url = if res.redirect = true then res.final_url else "")
  ∧ (∀ rec, classify_simple link res = some rec →
       rec.final_url = if res.redirect = true then res.final_url else "") := by
  constructor
  · intro rec h
    unfold classify_canvas at h
    cases ht : classify_canvas_type link res cid with
    | none => rw [ht] at h; cases h
    | some t =>
        rw [ht] at h
        simp only [Option.map_some'] at h
        injection h with h
        rw [← h]
        rfl
  · intro rec h
    unfold classify_simple at h
    simp only at h
    split at h
    · injection h with h
      rw [← h]
    · cases h

/-- Witness for C4's amended statement at the 503-after-redirect
example. -/
theorem final_url_follows_redirect_flag_witness :
    (canvas_row exLink99 exRes503R "Server Error (5xx)").final_url =
      (if exRes503R.redirect = true then exRes503R.final_url else "") :=
  (final_url_follows_redirect_flag exLink99 exRes503R "42").1
    (canvas_row exLink99 exRes503R "Server Error (5xx)") (by decide)

/-- C5: both URL checkers are total — every transport failure of the
probe becomes a result tuple with status 0, no redirect flag, an empty
final URL, the probed URL itself, and one of the three descriptive
failure texts; nothing is raised out of the function. -/
theorem transport_failure_yields_zero_status (base key url : String)
    (outcome : ProbeOutcome) (h : outcome.isFailure = true) :
    ((check_link_status_canvas base key url outcome).status = 0 ∧
     (check_link_status_canvas base key url outcome).is_redirect = false ∧
     (check_link_status_canvas base key url outcome).final_url = "" ∧
     (check_link_status_canvas base key url outcome).url = url ∧
     ((check_link_status_canvas base key url outcome).reason =
          "Connection Error" ∨
      (check_link_status_canvas base key url outcome).reason = "Timeout" ∨
      ∃ e, (check_link_status_canvas base key url outcome).reason =
          "Error: " ++ e))
  ∧ ((check_link_status_simple base key url outcome).status = 0 ∧
     (check_link_status_simple base key url outcome).is_redirect = false ∧
     (check_link_status_simple base key url outcome).final_url = "" ∧
     (check_link_status_simple base key url outcome).url = url ∧
     ((check_link_status_simple base key url outcome).reason =
          "Connection Error" ∨
      (check_link_status_simple base key url outcome).reason = "Timeout" ∨
      ∃ e, (check_link_status_simple base key url outcome).reason =
          "Error: " ++ e)) := by
  cases outcome with
  | response s r hl f => exact Bool.noConfusion h
  | connectionError =>
      exact ⟨⟨rfl, rfl, rfl, rfl, Or.inl rfl⟩, rfl, rfl, rfl, rfl, Or.inl rfl⟩
  | timeout =>
      exact ⟨⟨rfl, rfl, rfl, rfl, Or.inr (Or.inl rfl)⟩,
        rfl, rfl, rfl, rfl, Or.inr (Or.inl rfl)⟩
  | otherError e =>
      exact ⟨⟨rfl, rfl, rfl, rfl, Or.inr (Or.inr ⟨e, rfl⟩)⟩,
        rfl, rfl, rfl, rfl, Or.inr (Or.inr ⟨e, rfl⟩)⟩

/-- Witness for C5 at a concrete timeout. -/
theorem transport_failure_yields_zero_status_witness :
    (check_link_status_canvas "https://canvas.example.com" "k"
      "https://x.example/a" ProbeOutcome.timeout).status = 0 :=
  ((transport_failure_yields_zero_status "https://canvas.example.com" "k"
      "https://x.example/a" ProbeOutcome.timeout rfl).1).1

theorem lookupResult_checkAll_map (check : String → CheckResult) :
    ∀ (us : List String) (u : String), u ∈ us →
      lookupResult (us.map fun v => (v, check v)) u = some (check u) := by
  intro us
  induction us with
  | nil => intro u hu; cases hu
  | cons v rest ih =>
      intro u hu
      rw [List.map_cons]
      simp only [lookupResult]
      by_cases h : u = v
      · rw [if_pos h, h]
      · rw [if_neg h]
        rcases List.mem_cons.mp hu with h' | h'
        · exact absurd h' h
        · exact ih u h'

/-- C6: the coordinator performs exactly one check per distinct URL — the
collected mapping has one entry per distinct URL of the input links, its
keys are exactly those distinct URLs, every link's URL is found in the
mapping bound to the result of checking that URL, and two links sharing a
URL are looked up to the same single result. -/
theorem dedup_single_check_per_url (check : String → CheckResult)
    (links : List DiscoveredLink) :
    ((checkAll check links).length =
       ((links.map fun l => l.url).toFinset).card)
  ∧ ((checkAll check links).map Prod.fst = uniqueUrls links)
  ∧ (∀ u : String, u ∈ uniqueUrls links ↔ ∃ l ∈ links, l.url = u)
  ∧ (∀ l ∈ links,
       lookupResult (checkAll check links) l.url = some (check l.url))
  ∧ (∀ l1 ∈ links, ∀ l2 ∈ links, l1.url = l2.url →
       lookupResult (checkAll check links) l1.url =
         lookupResult (checkAll check links) l2.url) := by
  refine ⟨?_, ?_, ?_, ?_, ?_⟩
  · unfold checkAll uniqueUrls
    rw [List.length_map, List.card_toFinset]
  · unfold checkAll
    rw [List.map_map]
    show (uniqueUrls links).map id = uniqueUrls links
    exact List.map_id _
  · intro u
    unfold uniqueUrls
    rw [List.mem_dedup]
    exact List.mem_map
  · intro l hl
    unfold checkAll
    apply lookupResult_checkAll_map
    unfold uniqueUrls
    rw [List.mem_dedup]
    exact List.mem_map_of_mem _ hl
  · intro l1 h1 l2 h2 he
    rw [he]

/-- Witness for C6: two links sharing one URL are looked up to the same
result of the single check of that URL. -/
theorem dedup_single_check_per_url_witness :
    lookupResult (checkAll (fun _ => exRes200) [exLink99, exLinkB])
      exLink99.url = some exRes200 :=
  (dedup_single_check_per_url (fun _ => exRes200)
    [exLink99, exLinkB]).2.2.2.1 exLink99 (by simp)

/-- C8: extraction of an absent fragment and of an empty fragment both
yield the empty sequence without error, and extraction is deterministic
per fragment — equal inputs give element-wise equal outputs. -/
theorem extraction_empty_and_deterministic (base su ln : String) :
    (extract_links_from_html base none su ln = [])
  ∧ (extract_links_from_html base (some []) su ln = [])
  ∧ (∀ h1 h2 : Option (List Element), h1 = h2 →
       extract_links_from_html base h1 su ln =
         extract_links_from_html base h2 su ln) := by
  refine ⟨rfl, rfl, ?_⟩
  intro h1 h2 he
  rw [he]

/-- Witness for C8: re-extracting the concrete two-element fragment gives
the identical sequence. -/
theorem extraction_empty_and_deterministic_witness :
    extract_links_from_html "https://canvas.example.com"
        (some [⟨"img", [("src", "/i.png"), ("alt", "pic")], ""⟩,
               ⟨"a", [("href", "/p")], "go"⟩]) "s" "l" =
      extract_links_from_html "https://canvas.example.com"
        (some [⟨"img", [("src", "/i.png"), ("alt", "pic")], ""⟩,
               ⟨"a", [("href", "/p")], "go"⟩]) "s" "l" :=
  (extraction_empty_and_deterministic "https://canvas.example.com"
    "s" "l").2.2 _ _ rfl

/-- C9: the five-way classifier and the degenerate two-way classifier
emit a record for exactly the same (link, result) pairs, namely exactly
when the status is at least 400, or the status is the failure sentinel 0,
or the redirect flag is set; they differ only in the label. -/
theorem classifier_variants_emit_equally (link : DiscoveredLink)
    (res : CheckResult) (cid : String) :
    ((classify_canvas link res cid).isSome = (classify_simple link res).isSome)
  ∧ ((classify_canvas link res cid).isSome = true ↔
       (400 ≤ res.status ∨ res.status = 0 ∨ res.redirect = true)) := by
  have hc : (classify_canvas link res cid).isSome = true ↔
      (400 ≤ res.status ∨ res.status = 0 ∨ res.redirect = true) := by
    rw [Option.isSome_iff_ne_none, ne_eq, classify_canvas_eq_none_iff,
      classify_canvas_type_none_iff]
    constructor
    · intro h
      by_cases h4 : 400 ≤ res.status
      · exact Or.inl h4
      by_cases h0 : res.status = 0
      · exact Or.inr (Or.inl h0)
      cases hrd : res.redirect
      · exact absurd ⟨by omega, h0, hrd⟩ h
      · exact Or.inr (Or.inr rfl)
    · rintro (h | h | h) hcon
      · rcases hcon with ⟨a, -, -⟩
        omega
      · rcases hcon with ⟨-, b, -⟩
        exact b h
      · rcases hcon with ⟨-, -, c⟩
        rw [h] at c
        cases c
  have hs : (classify_simple link res).isSome = true ↔
      (400 ≤ res.status ∨ res.status = 0 ∨ res.redirect = true) := by
    simp only [classify_simple]
    by_cases h : ((decide (400 ≤ res.status) || decide (res.status = 0)) ||
        res.redirect) = true
    · rw [if_pos h]
      refine iff_of_true rfl ?_
      simp only [Bool.or_eq_true, decide_eq_true_eq] at h
      tauto
    · rw [if_neg h]
      refine iff_of_false (by simp) ?_
      simp only [Bool.or_eq_true, decide_eq_true_eq] at h
      intro hr
      exact h (by tauto)
  have hb : ∀ x y : Bool, (x = true ↔ y = true) → x = y := by decide
  exact ⟨hb _ _ (hc.trans hs.symm), hc⟩

/-- Witness for C9: the 503-after-redirect result is reported by the
five-way classifier. -/
theorem classifier_variants_emit_equally_witness :
    (classify_canvas exLink99 exRes503R "42").isSome = true :=
  (classifier_variants_emit_equally exLink99 exRes503R "42").2.mpr
    (Or.inl (by decide))

theorem mem_anchorPass_type (base su ln : String) (doc : List Element) :
    ∀ x ∈ anchorPass base su ln doc, x.type = "Link" := by
  intro x hx
  unfold anchorPass at hx
  rw [List.mem_filterMap] at hx
  obtain ⟨a, -, ha⟩ := hx
  revert ha
  cases getAttr a "href" with
  | none => intro ha; cases ha
  | some href =>
      dsimp only
      intro ha
      by_cases hv : is_valid_url_str href = true
      · rw [if_pos hv] at ha
        injection ha with ha
        subst ha
        rfl
      · rw [if_neg hv] at ha
        cases ha

theorem mem_imagePass_type (base su ln : String) (doc : List Element) :
    ∀ x ∈ imagePass base su ln doc, x.type = "Image" := by
  intro x hx
  unfold imagePass at hx
  rw [List.mem_filterMap] at hx
  obtain ⟨a, -, ha⟩ := hx
  revert ha
  cases getAttr a "src" with
  | none => intro ha; cases ha
  | some src =>
      dsimp only
      split_ifs with hv
      · intro ha
        injection ha with ha
        rw [← ha]
      · intro ha
        cases ha

theorem mem_iframePass_type (base su ln : String) (doc : List Element) :
    ∀ x ∈ iframePass base su ln doc, x.type = "Iframe" := by
  intro x hx
  unfold iframePass at hx
  rw [List.mem_filterMap] at hx
  obtain ⟨a, -, ha⟩ := hx
  revert ha
  cases getAttr a "src" with
  | none => intro ha; cases ha
  | some src =>
      dsimp only
      split_ifs with hv
      · intro ha
        injection ha with ha
        rw [← ha]
      · intro ha
        cases ha

theorem map_type_const (c : String) : ∀ l : List DiscoveredLink,
    (∀ x ∈ l, x.type = c) →
    l.map (fun x => x.type) = List.replicate l.length c := by
  intro l
  induction l with
  | nil => intro _; rfl
  | cons a as ih =>
      intro h
      rw [List.map_cons, List.length_cons, List.replicate_succ,
        h a (List.mem_cons_self a as),
        ih fun x hx => h x (List.mem_cons_of_mem a hx)]

/-- C10: the extracted sequence is grouped by tag category — the type
labels of the output read as a block of "Link", then a block of "Image",
then a block of "Iframe", each block one pass over the fragment in
document order; concretely, on a fragment where an image precedes an
anchor, the anchor's record still comes first. -/
theorem extraction_grouped_by_category (base su ln : String)
    (doc : List Element) :
    ((extract_links_from_html base (some doc) su ln).map (fun x => x.type) =
       List.replicate (anchorPass base su ln doc).length "Link" ++
       List.replicate (imagePass base su ln doc).length "Image" ++
       List.replicate (iframePass base su ln doc).length "Iframe")
  ∧ (extract_links_from_html "https://canvas.example.com"
        (some [⟨"img", [("src", "/i.png"), ("alt", "pic")], ""⟩,
               ⟨"a", [("href", "/p")], "go"⟩]) "s" "l" =
      [{ url := "https://canvas.example.com/p", text := "go",
         source_url := "s", location_name := "l", type := "Link" },
       { url := "https://canvas.example.com/i.png", text := "Image: pic",
         source_url := "s", location_name := "l", type := "Image" }]) := by
  constructor
  · show (anchorPass base su ln doc ++ imagePass base su ln doc ++
        iframePass base su ln doc).map (fun x => x.type) = _
    rw [List.map_append, List.map_append,
      map_type_const "Link" _ (mem_anchorPass_type base su ln doc),
      map_type_const "Image" _ (mem_imagePass_type base su ln doc),
      map_type_const "Iframe" _ (mem_iframePass_type base su ln doc)]
  · decide

end LinkChecker
